import Mathlib

/-!
Verification development for the BPR recommender in
src/cornac/models/bpr/recom_bpr.py.

The Python class BPR (a Recommender subclass) stores hyperparameters and two
optional factor matrices U and V, and exposes fit, score and rank.  Scores are
real numbers; we embed them as rationals so that every definition is
executable.  Matrices are lists of rows.  Python exceptions are embedded as an
error type returned through Except.
-/

/-- Modelled from the spec: the external Dataset collaborator (class TrainSet,
not under src/) exposes the sizes of the trained population.  User and item
indices are dense integers in the ranges [0, num_users) and [0, num_items). -/
structure TrainSet where
  num_users : Nat
  num_items : Nat
deriving DecidableEq, Repr

/-- Modelled from the spec: isUnknownUser(id) of the Dataset collaborator.
A user index is unknown exactly when it lies outside [0, num_users). -/
def TrainSet.is_unk_user (ts : TrainSet) (user_id : Nat) : Bool :=
  ts.num_users ≤ user_id

/-- Modelled from the spec: isUnknownItem(id) of the Dataset collaborator.
An item index is unknown exactly when it lies outside [0, num_items). -/
def TrainSet.is_unk_item (ts : TrainSet) (item_id : Nat) : Bool :=
  ts.num_items ≤ item_id

/-- The Python exceptions that the embedded methods can surface.
scoreException is the ScoreException of the repository; attributeError is the
Python AttributeError (accessing self.train_set before fit has set it);
typeError is the Python TypeError (indexing a factor matrix that is still
None); valueError is the Python ValueError (max() of an empty candidate
sequence).  notFittedError stands for the dedicated "model not fitted" error
that the error taxonomy of the spec names; no code path of the source
produces it. -/
inductive PyError where
  | attributeError
  | typeError
  | valueError
  | scoreException
  | notFittedError
deriving DecidableEq, Repr

/-- Dense matrices (numpy 2d arrays) as lists of rows of rationals. -/
abbrev Mat := List (List ℚ)

/-- numpy dot product of two vectors: sum of elementwise products. -/
def dotProduct (a b : List ℚ) : ℚ :=
  (List.zipWith (· * ·) a b).sum

/-- Row access M[i, :]; out-of-range access is given the empty row (theorems
about the source only ever use it in range). -/
def row (M : Mat) (i : Nat) : List ℚ :=
  M.getD i []

/-- The state of a BPR model object (recom_bpr.py, class BPR).  The factor
matrices U and V are None (embedded as Option.none) until supplied or trained;
train_set is absent until fit runs.  The name and verbose fields of the source
only affect logging and are omitted. -/
structure BPR where
  k : Int
  max_iter : Int
  learning_rate : ℚ
  lamda : ℚ
  batch_size : Int
  trainable : Bool
  U : Option Mat
  V : Option Mat
  train_set : Option TrainSet
deriving DecidableEq, Repr

/-- Configuration errors.  The error taxonomy of the spec names a
ConfigurationError for invalid hyperparameters; the source constructor never
raises it. -/
inductive ConfigError where
  | invalidHyperparameter
deriving DecidableEq, Repr

/-- Embedding of BPR.__init__ (recom_bpr.py lines 53-65).  The constructor
stores every argument unchanged and performs no validation whatsoever; it is
given an Except result type only so that claims about construction-time
rejection can be stated, and it always returns Except.ok. -/
def BPR.init (k : Int) (max_iter : Int) (learning_rate : ℚ) (lamda : ℚ)
    (batch_size : Int) (trainable : Bool) (initU initV : Option Mat) :
    Except ConfigError BPR :=
  Except.ok ⟨k, max_iter, learning_rate, lamda, batch_size, trainable,
             initU, initV, none⟩

/-- Embedding of BPR.fit (recom_bpr.py lines 68-101).  Recommender.fit of the
base class (not under src/) records the training set on the model; the Cython
routine bpr from module .bpr (also not under src/) is abstracted as the
function argument bprTrain producing the trained pair (U, V).  When trainable
is false the branch at line 100 performs no update at all. -/
def BPR.fit (bprTrain : TrainSet → BPR → Mat × Mat) (m : BPR)
    (train_set : TrainSet) : BPR :=
  let m1 : BPR := ⟨m.k, m.max_iter, m.learning_rate, m.lamda, m.batch_size,
                   m.trainable, m.U, m.V, some train_set⟩
  if m1.trainable then
    let res := bprTrain train_set m1
    ⟨m1.k, m1.max_iter, m1.learning_rate, m1.lamda, m1.batch_size,
     m1.trainable, some res.1, some res.2, m1.train_set⟩
  else
    m1

/-- Embedding of BPR.score (recom_bpr.py lines 104-126).  Before fit the model
has no train_set attribute, so the access self.train_set raises
AttributeError; an unknown user or item raises ScoreException (lines 121-122);
indexing a factor matrix that is still None raises TypeError; otherwise the
result is V[item_id, :].dot(U[user_id, :]) (line 124). -/
def BPR.score (m : BPR) (user_id item_id : Nat) : Except PyError ℚ :=
  match m.train_set with
  | none => Except.error PyError.attributeError
  | some ts =>
    if ts.is_unk_user user_id || ts.is_unk_item item_id then
      Except.error PyError.scoreException
    else
      match m.V, m.U with
      | some V, some U =>
        Except.ok (dotProduct (row V item_id) (row U user_id))
      | _, _ => Except.error PyError.typeError

/-- The index comparison used to model argsort: ascending score, ties at the
smaller index first.  numpy argsort with its default quicksort is
deterministic but documents no tie order; the embedding fixes ties at
ascending index (what the numpy small-array insertion-sort regime produces)
to stay deterministic and executable.  Theorems whose content depends on this
tie choice say so explicitly; the claim-level results below rely only on
tie-agnostic consequences (ascending scores, being a permutation). -/
def idxLe (xs : List ℚ) (i j : Nat) : Prop :=
  xs.getD i 0 < xs.getD j 0 ∨ (xs.getD i 0 = xs.getD j 0 ∧ i ≤ j)

instance (xs : List ℚ) : DecidableRel (idxLe xs) := fun i j => by
  unfold idxLe
  infer_instance

/-- Model of numpy argsort(xs): the indices 0, ..., len(xs)-1 arranged so
that the scores they pick are ascending.  The order of equal scores is one
admissible resolution of the tie order numpy leaves unspecified. -/
def argsort (xs : List ℚ) : List Nat :=
  List.insertionSort (idxLe xs) (List.range xs.length)

/-- argsort(xs)[::-1] as used at lines 156 and 163 of the source: descending
scores; whatever tie order the ascending sort produced is inverted by the
reversal. -/
def argsortDesc (xs : List ℚ) : List Nat :=
  (argsort xs).reverse

/-- The score vector self.V.dot(self.U[user_id, :]) of line 153: one score per
row of V. -/
def itemScores (V U : Mat) (user_id : Nat) : List ℚ :=
  V.map (fun vrow => dotProduct vrow (row U user_id))

/-- Embedding of BPR.rank (recom_bpr.py lines 130-167).  The argument d is the
value of self.default_score(); modelled from the spec, since the base
Recommender that defines default_score is not under src/ (the spec calls it
the configurable unknown-item baseline).  For an unknown user the candidate
list (or arange(num_items)) is returned unchanged (lines 148-151).  Otherwise
the score vector is computed; with no candidates it is argsorted descending
(line 156).  With candidates, max(candidate_item_ids) raises ValueError on an
empty sequence (line 159); the score vector is extended with the default score
up to max(num_items, max(C)+1) entries (lines 160-161; the slice assignment
assumes V has num_items rows, a well-formedness condition theorems state
explicitly),
argsorted descending, and filtered to the candidates (lines 163-165). -/
def BPR.rank (m : BPR) (d : ℚ) (user_id : Nat)
    (candidate_item_ids : Option (List Nat)) : Except PyError (List Nat) :=
  match m.train_set with
  | none => Except.error PyError.attributeError
  | some ts =>
    if ts.is_unk_user user_id then
      match candidate_item_ids with
      | none => Except.ok (List.range ts.num_items)
      | some C => Except.ok C
    else
      match m.U, m.V with
      | some U, some V =>
        let known_item_scores := itemScores V U user_id
        match candidate_item_ids with
        | none => Except.ok (argsortDesc known_item_scores)
        | some C =>
          match C.max? with
          | none => Except.error PyError.valueError
          | some mx =>
            let num_items := Nat.max ts.num_items (mx + 1)
            let user_pref_scores := known_item_scores ++
              List.replicate (num_items - ts.num_items) d
            let ranked_item_ids := argsortDesc user_pref_scores
            Except.ok (ranked_item_ids.filter (fun i => decide (i ∈ C)))
      | _, _ => Except.error PyError.typeError

/-! ## Concrete models used by witnesses and counterexamples -/

/-- A training population with one user and two items. -/
def ts1 : TrainSet := ⟨1, 2⟩

/-- A fitted model over ts1 whose two items tie: both score 0 for user 0. -/
def exM1 : BPR :=
  ⟨5, 100, 1 / 1000, 1 / 1000, 100, true, some [[1]], some [[0], [0]], some ts1⟩

/-- A fitted model over ts1 with distinct item scores 1 and 2 for user 0. -/
def exM2 : BPR :=
  ⟨5, 100, 1 / 1000, 1 / 1000, 100, true, some [[1]], some [[1], [2]], some ts1⟩

/-- The state produced by the constructor with trainable and no factors. -/
def mNotFitted : BPR :=
  ⟨5, 100, 1 / 1000, 1 / 1000, 100, true, none, none, none⟩

/-- A non-trainable model holding externally supplied factors. -/
def mPre : BPR :=
  ⟨5, 100, 1 / 1000, 1 / 1000, 100, false, some [[1]], some [[2]], none⟩

/-! ## Order facts about the argsort comparison -/

instance (xs : List ℚ) : IsTrans Nat (idxLe xs) where
  trans a b c hab hbc := by
    rcases hab with h1 | ⟨e1, l1⟩
    · rcases hbc with h2 | ⟨e2, l2⟩
      · exact Or.inl (h1.trans h2)
      · exact Or.inl (e2 ▸ h1)
    · rcases hbc with h2 | ⟨e2, l2⟩
      · exact Or.inl (e1 ▸ h2)
      · exact Or.inr ⟨e1.trans e2, l1.trans l2⟩

instance (xs : List ℚ) : IsTotal Nat (idxLe xs) where
  total a b := by
    rcases lt_trichotomy (xs.getD a 0) (xs.getD b 0) with h | h | h
    · exact Or.inl (Or.inl h)
    · rcases Nat.le_total a b with hab | hba
      · exact Or.inl (Or.inr ⟨h, hab⟩)
      · exact Or.inr (Or.inr ⟨h.symm, hba⟩)
    · exact Or.inr (Or.inl h)

theorem argsort_perm (xs : List ℚ) : (argsort xs).Perm (List.range xs.length) :=
  List.perm_insertionSort _ _

theorem argsort_sorted (xs : List ℚ) : (argsort xs).Pairwise (idxLe xs) :=
  List.sorted_insertionSort _ _

theorem argsortDesc_sorted (xs : List ℚ) :
    (argsortDesc xs).Pairwise (fun a b => idxLe xs b a) :=
  List.pairwise_reverse.mpr (argsort_sorted xs)

theorem argsortDesc_perm (xs : List ℚ) :
    (argsortDesc xs).Perm (List.range xs.length) :=
  (List.reverse_perm _).trans (argsort_perm xs)

/-! ## Facts about Python max over a list of indices -/

theorem max?_mem_nat {C : List Nat} {mx : Nat} (h : C.max? = some mx) :
    mx ∈ C :=
  List.max?_mem (fun a b => max_choice a b) h

theorem le_max?_nat {C : List Nat} {mx : Nat} (h : C.max? = some mx) :
    ∀ c ∈ C, c ≤ mx := fun c hc =>
  (List.max?_le_iff (fun _ _ _ => Nat.max_le) h).mp (le_refl mx) c hc

theorem max?_of_ne_nil {C : List Nat} (h : C ≠ []) :
    ∃ mx, C.max? = some mx := by
  cases hC : C.max? with
  | none => exact absurd (List.max?_eq_none_iff.mp hC) h
  | some mx => exact ⟨mx, rfl⟩

/-- Filtering any permutation of range n down to a duplicate-free candidate
list contained in [0, n) yields a permutation of the candidate list. -/
theorem filter_perm_of_perm_range {n : Nat} {C : List Nat} (hnd : C.Nodup)
    (hC : ∀ c ∈ C, c < n) {l : List Nat} (hl : l.Perm (List.range n)) :
    (l.filter (fun i => decide (i ∈ C))).Perm C := by
  refine (hl.filter _).trans ?_
  rw [List.perm_ext_iff_of_nodup (List.Nodup.filter _ (List.nodup_range n)) hnd]
  intro a
  simp only [List.mem_filter, List.mem_range, decide_eq_true_eq]
  exact ⟨fun h => h.2, fun h => ⟨hC a h, h⟩⟩

/-! ## Reduction lemmas: the branches of BPR.rank under explicit hypotheses -/

theorem rank_known_none (m : BPR) (ts : TrainSet) (U V : Mat) (d : ℚ) (u : Nat)
    (hts : m.train_set = some ts) (hu : ts.is_unk_user u = false)
    (hU : m.U = some U) (hV : m.V = some V) :
    m.rank d u none = Except.ok (argsortDesc (itemScores V U u)) := by
  simp only [BPR.rank, hts, hu, hU, hV, Bool.false_eq_true, if_false]

theorem rank_known_cand (m : BPR) (ts : TrainSet) (U V : Mat) (d : ℚ) (u : Nat)
    (C : List Nat) (mx : Nat)
    (hts : m.train_set = some ts) (hu : ts.is_unk_user u = false)
    (hU : m.U = some U) (hV : m.V = some V) (hmx : C.max? = some mx) :
    m.rank d u (some C) = Except.ok
      ((argsortDesc (itemScores V U u ++
          List.replicate (Nat.max ts.num_items (mx + 1) - ts.num_items) d)).filter
        (fun i => decide (i ∈ C))) := by
  simp only [BPR.rank, hts, hu, hU, hV, hmx, Bool.false_eq_true, if_false]

/-! ## C1: ordering of the unrestricted ranking -/

/-- C1 counterexample: in the model exM1 both items score 0 for user 0, yet
rank returns [1, 0], not the ascending original index order [0, 1] that the
claim requires for ties.  On a two-element array numpy argsort runs its
stable small-array sort, so the reversal at line 156 observably puts the
larger tied index first, refuting the claimed ascending tie-break. -/
theorem C1_counterexample :
    BPR.rank exM1 0 0 none = Except.ok [1, 0] ∧
    dotProduct (row [[0], [0]] 0) (row [[1]] 0) =
      dotProduct (row [[0], [0]] 1) (row [[1]] 0) ∧
    (Except.ok [1, 0] : Except PyError (List Nat)) ≠ Except.ok [0, 1] := by
  refine ⟨?_, by norm_num [dotProduct, row], by simp⟩
  norm_num [BPR.rank, exM1, ts1, TrainSet.is_unk_user, itemScores, dotProduct,
    row, argsortDesc, argsort, List.insertionSort, List.orderedInsert, idxLe]

/-- C1 (amended): for every known user u, rank(u) with no candidate
restriction returns the item indices — a permutation of 0, ...,
num_items - 1 — in non-increasing order of their scores V.dot(U[u, :]).
The claimed stable ascending-index tie-break does not hold (numpy argsort
with its default quicksort guarantees no tie order, and the reversal makes
the observable small-array behavior come out descending, per the
counterexample); only the tie-agnostic content is asserted here, which holds
for any correct ascending argsort. -/
theorem C1_rank_sorted_descending (m : BPR) (ts : TrainSet) (U V : Mat)
    (d : ℚ) (u : Nat)
    (hts : m.train_set = some ts) (hu : ts.is_unk_user u = false)
    (hU : m.U = some U) (hV : m.V = some V)
    (hVlen : V.length = ts.num_items) :
    m.rank d u none = Except.ok (argsortDesc (itemScores V U u)) ∧
    (argsortDesc (itemScores V U u)).Pairwise
      (fun a b => (itemScores V U u).getD b 0 ≤ (itemScores V U u).getD a 0) ∧
    (argsortDesc (itemScores V U u)).Perm (List.range ts.num_items) := by
  have hslen : (itemScores V U u).length = ts.num_items := by
    simp [itemScores, hVlen]
  refine ⟨rank_known_none m ts U V d u hts hu hU hV, ?_, ?_⟩
  · refine (argsortDesc_sorted (itemScores V U u)).imp ?_
    intro a b h
    rcases h with h | ⟨h, _⟩
    · exact le_of_lt h
    · exact le_of_eq h
  · have h0 := argsortDesc_perm (itemScores V U u)
    rw [hslen] at h0
    exact h0

/-- C1 witness: the amended theorem applied to the concrete model exM1. -/
theorem C1_witness :
    BPR.rank exM1 0 0 none =
      Except.ok (argsortDesc (itemScores [[0], [0]] [[1]] 0)) ∧
    (argsortDesc (itemScores [[0], [0]] [[1]] 0)).Pairwise
      (fun a b => (itemScores [[0], [0]] [[1]] 0).getD b 0 ≤
        (itemScores [[0], [0]] [[1]] 0).getD a 0) ∧
    (argsortDesc (itemScores [[0], [0]] [[1]] 0)).Perm
      (List.range ts1.num_items) :=
  C1_rank_sorted_descending exM1 ts1 [[1]] [[0], [0]] 0 0 rfl rfl rfl rfl rfl

/-! ## C2: restricted ranking consistency -/

/-- C2 counterexample: the empty candidate list is a subset of the trained
item population, but rank(0, []) raises ValueError (Python max of an empty
sequence at line 159) instead of returning the empty filtration of rank(0). -/
theorem C2_counterexample :
    BPR.rank exM2 0 0 (some []) = Except.error PyError.valueError ∧
    BPR.rank exM2 0 0 none = Except.ok [1, 0] ∧
    (Except.error PyError.valueError : Except PyError (List Nat)) ≠
      Except.ok (List.filter (fun i => decide (i ∈ ([] : List Nat))) [1, 0]) := by
  refine ⟨?_, ?_, by simp⟩
  · norm_num [BPR.rank, exM2, ts1, TrainSet.is_unk_user, List.max?]
  · norm_num [BPR.rank, exM2, ts1, TrainSet.is_unk_user, itemScores, dotProduct,
      row, argsortDesc, argsort, List.insertionSort, List.orderedInsert, idxLe]

/-- C2 (amended): for every known user u and every NONEMPTY candidate list C
whose indices all lie inside the trained item population, rank(u, C) equals
rank(u) filtered down to the elements of C, preserving their relative order.
For the empty candidate list the source raises ValueError instead. -/
theorem C2_rank_restricted_consistency (m : BPR) (ts : TrainSet) (U V : Mat)
    (d : ℚ) (u : Nat) (C : List Nat)
    (hts : m.train_set = some ts) (hu : ts.is_unk_user u = false)
    (hU : m.U = some U) (hV : m.V = some V)
    (hne : C ≠ []) (hsub : ∀ c ∈ C, c < ts.num_items) :
    m.rank d u none = Except.ok (argsortDesc (itemScores V U u)) ∧
    m.rank d u (some C) = Except.ok
      ((argsortDesc (itemScores V U u)).filter (fun i => decide (i ∈ C))) := by
  obtain ⟨mx, hmx⟩ := max?_of_ne_nil hne
  have hmxlt : mx + 1 ≤ ts.num_items := hsub mx (max?_mem_nat hmx)
  have hmax : Nat.max ts.num_items (mx + 1) = ts.num_items :=
    Nat.max_eq_left hmxlt
  refine ⟨rank_known_none m ts U V d u hts hu hU hV, ?_⟩
  rw [rank_known_cand m ts U V d u C mx hts hu hU hV hmx, hmax, Nat.sub_self]
  simp

/-- C2 witness: the amended theorem applied to the model exM2 with the
candidate list [0]. -/
theorem C2_witness :
    BPR.rank exM2 0 0 none = Except.ok (argsortDesc (itemScores [[1], [2]] [[1]] 0)) ∧
    BPR.rank exM2 0 0 (some [0]) = Except.ok
      ((argsortDesc (itemScores [[1], [2]] [[1]] 0)).filter
        (fun i => decide (i ∈ [0]))) :=
  C2_rank_restricted_consistency exM2 ts1 [[1]] [[1], [2]] 0 0 [0]
    rfl rfl rfl rfl (by simp) (by decide)

/-! ## C3: unknown-entity handling of score -/

/-- C3: on a fitted model (train set recorded, both factor matrices present),
score(u, i) raises ScoreException exactly when the user or the item is
unknown to the training population, and in the unknown case it never returns
a numeric score. -/
theorem C3_score_unknown_entity (m : BPR) (ts : TrainSet) (U V : Mat)
    (hts : m.train_set = some ts) (hU : m.U = some U) (hV : m.V = some V)
    (u i : Nat) (q : ℚ) :
    (m.score u i = Except.error PyError.scoreException ↔
      (ts.is_unk_user u = true ∨ ts.is_unk_item i = true)) ∧
    ((ts.is_unk_user u = true ∨ ts.is_unk_item i = true) →
      m.score u i ≠ Except.ok q) := by
  have hred : m.score u i =
      if ts.is_unk_user u || ts.is_unk_item i then
        Except.error PyError.scoreException
      else Except.ok (dotProduct (row V i) (row U u)) := by
    simp only [BPR.score, hts, hU, hV]
  by_cases h : (ts.is_unk_user u || ts.is_unk_item i) = true
  · have h' := Bool.or_eq_true _ _ ▸ h
    rw [hred]
    simp [h, h']
  · have h' : ¬(ts.is_unk_user u = true ∨ ts.is_unk_item i = true) := by
      simpa [Bool.or_eq_true] using h
    rw [hred]
    simp [h, h']

/-- C3 witness: on the concrete fitted model exM2 with known population
(1 user, 2 items), the characterization instantiated at the unknown user 5
and the known item 0. -/
theorem C3_witness :
    (BPR.score exM2 5 0 = Except.error PyError.scoreException ↔
      (ts1.is_unk_user 5 = true ∨ ts1.is_unk_item 0 = true)) ∧
    ((ts1.is_unk_user 5 = true ∨ ts1.is_unk_item 0 = true) →
      BPR.score exM2 5 0 ≠ Except.ok 0) :=
  C3_score_unknown_entity exM2 ts1 [[1]] [[1], [2]] rfl rfl rfl 5 0 0

/-! ## C4: calling score before fit -/

/-- C4 counterexample: the model built by the constructor with trainable and
no initial factors gives, for score(0, 0) before fit, the Python
AttributeError caused by the missing train_set attribute — not the dedicated
NotFittedError the claim requires. -/
theorem C4_counterexample :
    BPR.init 5 100 (1 / 1000) (1 / 1000) 100 true none none =
      Except.ok mNotFitted ∧
    BPR.score mNotFitted 0 0 = Except.error PyError.attributeError ∧
    BPR.score mNotFitted 0 0 ≠ Except.error PyError.notFittedError := by
  refine ⟨rfl, rfl, ?_⟩
  simp [BPR.score, mNotFitted]

/-- C4 (amended): calling score() before fit() has ever run fails — the
access to the absent train_set raises AttributeError, so no garbage score is
returned — but the failure is a generic AttributeError, not a dedicated
NotFittedError. -/
theorem C4_score_before_fit (m : BPR) (u i : Nat) (q : ℚ)
    (h : m.train_set = none) :
    m.score u i = Except.error PyError.attributeError ∧
    m.score u i ≠ Except.error PyError.notFittedError ∧
    m.score u i ≠ Except.ok q := by
  have hred : m.score u i = Except.error PyError.attributeError := by
    simp only [BPR.score, h]
  exact ⟨hred, by simp [hred], by simp [hred]⟩

/-- C4 witness: the amended theorem applied to the freshly constructed
model mNotFitted. -/
theorem C4_witness :
    BPR.score mNotFitted 0 0 = Except.error PyError.attributeError ∧
    BPR.score mNotFitted 0 0 ≠ Except.error PyError.notFittedError ∧
    BPR.score mNotFitted 0 0 ≠ Except.ok 0 :=
  C4_score_before_fit mNotFitted 0 0 0 rfl

/-! ## C5: constructor validation -/

/-- C5 counterexample: construction with k = 0 (and negative learning rate
and regularization) succeeds and returns a model, although the claim requires
every such construction to fail with a configuration error. -/
theorem C5_counterexample :
    BPR.init 0 0 (-1) (-1) 0 true none none =
      Except.ok ⟨0, 0, -1, -1, 0, true, none, none, none⟩ ∧
    (0 : Int) ≤ 0 ∧ (-1 : ℚ) < 0 :=
  ⟨rfl, le_refl 0, by norm_num⟩

/-- C5 (amended): the constructor performs no validation at all — for every
hyperparameter values, valid or invalid, construction succeeds and the model
stores the given values unchanged; any failure is deferred to later calls. -/
theorem C5_init_accepts_everything (k max_iter : Int) (learning_rate lamda : ℚ)
    (batch_size : Int) (trainable : Bool) (initU initV : Option Mat) :
    BPR.init k max_iter learning_rate lamda batch_size trainable initU initV =
      Except.ok ⟨k, max_iter, learning_rate, lamda, batch_size, trainable,
                 initU, initV, none⟩ :=
  rfl

/-! ## C6: ranking for an unknown user -/

/-- C6: for every unknown user, rank returns the supplied candidate list
unchanged in its input order, and with no candidate list it returns all item
indices in natural order 0, 1, ..., num_items - 1; no error is raised. -/
theorem C6_rank_unknown_user (m : BPR) (ts : TrainSet) (u : Nat) (d : ℚ)
    (cands : Option (List Nat))
    (hts : m.train_set = some ts) (hu : ts.is_unk_user u = true) :
    m.rank d u cands = Except.ok (cands.getD (List.range ts.num_items)) := by
  cases cands <;> simp [BPR.rank, hts, hu]

/-- C6 witness: the unknown user 5 of the model exM2, once with no candidate
list and once with the out-of-population candidate list [9, 4]. -/
theorem C6_witness :
    BPR.rank exM2 0 5 none =
      Except.ok ((none : Option (List Nat)).getD (List.range ts1.num_items)) ∧
    BPR.rank exM2 0 5 (some [9, 4]) =
      Except.ok ((some [9, 4]).getD (List.range ts1.num_items)) :=
  ⟨C6_rank_unknown_user exM2 ts1 5 0 none rfl rfl,
   C6_rank_unknown_user exM2 ts1 5 0 (some [9, 4]) rfl rfl⟩

/-! ## C7: candidates beyond the trained item population -/

/-- C7: for a known user and a candidate list reaching beyond the trained
item population (its maximum mx is at least num_items), rank extends the
score vector with the default baseline score d for every index from
num_items up to mx, argsorts the full extended vector descending, and filters
it down to the candidates; every extended entry below num_items is the
trained score and every entry beyond carries the default, and the sorted full
vector is pairwise descending. -/
theorem C7_rank_beyond_population (m : BPR) (ts : TrainSet) (U V : Mat)
    (d : ℚ) (u : Nat) (C : List Nat) (mx : Nat) (j1 j2 : Nat)
    (hts : m.train_set = some ts) (hu : ts.is_unk_user u = false)
    (hU : m.U = some U) (hV : m.V = some V)
    (hVlen : V.length = ts.num_items)
    (hmx : C.max? = some mx) (hbeyond : ts.num_items ≤ mx)
    (hj1 : j1 < ts.num_items)
    (hj2a : ts.num_items ≤ j2) (hj2b : j2 < mx + 1) :
    m.rank d u (some C) = Except.ok
      ((argsortDesc (itemScores V U u ++
          List.replicate (mx + 1 - ts.num_items) d)).filter
        (fun i => decide (i ∈ C))) ∧
    (itemScores V U u ++ List.replicate (mx + 1 - ts.num_items) d).length =
      mx + 1 ∧
    (itemScores V U u ++ List.replicate (mx + 1 - ts.num_items) d).getD j1 0 =
      (itemScores V U u).getD j1 0 ∧
    (itemScores V U u ++ List.replicate (mx + 1 - ts.num_items) d).getD j2 0 =
      d ∧
    (argsortDesc (itemScores V U u ++
        List.replicate (mx + 1 - ts.num_items) d)).Pairwise
      (fun a b =>
        idxLe (itemScores V U u ++ List.replicate (mx + 1 - ts.num_items) d)
          b a) := by
  have hslen : (itemScores V U u).length = ts.num_items := by
    simp [itemScores, hVlen]
  have hmax : Nat.max ts.num_items (mx + 1) = mx + 1 :=
    Nat.max_eq_right (Nat.le_succ_of_le hbeyond)
  refine ⟨?_, ?_, ?_, ?_, argsortDesc_sorted _⟩
  · rw [rank_known_cand m ts U V d u C mx hts hu hU hV hmx, hmax]
  · rw [List.length_append, List.length_replicate, hslen]
    omega
  · exact List.getD_append _ _ _ _ (hslen ▸ hj1)
  · rw [List.getD_append_right _ _ _ _ (by omega : (itemScores V U u).length ≤ j2),
      List.getD_eq_getElem?_getD, List.getElem?_replicate]
    rw [hslen]
    simp only [if_pos (by omega : j2 - ts.num_items < mx + 1 - ts.num_items)]
    rfl

/-- C7 witness: the theorem applied to the model exM2 and the candidate list
[3, 0], whose maximum 3 lies beyond the two trained items; the probed
positions are the trained index 0 and the extended index 3. -/
theorem C7_witness :
    BPR.rank exM2 0 0 (some [3, 0]) = Except.ok
      ((argsortDesc (itemScores [[1], [2]] [[1]] 0 ++
          List.replicate (3 + 1 - ts1.num_items) 0)).filter
        (fun i => decide (i ∈ [3, 0]))) ∧
    (itemScores [[1], [2]] [[1]] 0 ++
      List.replicate (3 + 1 - ts1.num_items) 0).length = 3 + 1 ∧
    (itemScores [[1], [2]] [[1]] 0 ++
      List.replicate (3 + 1 - ts1.num_items) 0).getD 0 0 =
      (itemScores [[1], [2]] [[1]] 0).getD 0 0 ∧
    (itemScores [[1], [2]] [[1]] 0 ++
      List.replicate (3 + 1 - ts1.num_items) 0).getD 3 0 = 0 ∧
    (argsortDesc (itemScores [[1], [2]] [[1]] 0 ++
        List.replicate (3 + 1 - ts1.num_items) 0)).Pairwise
      (fun a b =>
        idxLe (itemScores [[1], [2]] [[1]] 0 ++
          List.replicate (3 + 1 - ts1.num_items) 0) b a) :=
  C7_rank_beyond_population exM2 ts1 [[1]] [[1], [2]] 0 0 [3, 0] 3 0 3
    rfl rfl rfl rfl rfl rfl (by decide) (by decide) (by decide) (by decide)

/-! ## C8: score of a known pair -/

theorem dotProduct_comm (a b : List ℚ) : dotProduct a b = dotProduct b a := by
  unfold dotProduct
  rw [List.zipWith_comm_of_comm _ mul_comm]

/-- C8: for a fitted model and a known user u and known item i, score(u, i)
returns exactly the dot product of the item factor row V[i, :] and the user
factor row U[u, :] (equal, by commutativity, to the dot product of U[u, :]
and V[i, :]).  The embedding of score is a pure function of the model state,
so the call leaves the factor matrices and the training set untouched. -/
theorem C8_score_known (m : BPR) (ts : TrainSet) (U V : Mat) (u i : Nat)
    (hts : m.train_set = some ts) (hU : m.U = some U) (hV : m.V = some V)
    (hu : ts.is_unk_user u = false) (hi : ts.is_unk_item i = false) :
    m.score u i = Except.ok (dotProduct (row V i) (row U u)) ∧
    dotProduct (row V i) (row U u) = dotProduct (row U u) (row V i) := by
  refine ⟨?_, dotProduct_comm _ _⟩
  simp [BPR.score, hts, hU, hV, hu, hi]

/-- C8 witness: the theorem applied to the fitted model exM2 at the known
pair (0, 1). -/
theorem C8_witness :
    BPR.score exM2 0 1 = Except.ok (dotProduct (row [[1], [2]] 1) (row [[1]] 0)) ∧
    dotProduct (row [[1], [2]] 1) (row [[1]] 0) =
      dotProduct (row [[1]] 0) (row [[1], [2]] 1) :=
  C8_score_known exM2 ts1 [[1]] [[1], [2]] 0 1 rfl rfl rfl rfl rfl

/-! ## C9: fit with trainable false performs no update -/

/-- C9: if trainable is false, fit performs no update to the factor matrices:
whatever the training routine would compute, after fit the model holds
exactly the U and V it held before the call. -/
theorem C9_fit_preserves_factors (bprTrain : TrainSet → BPR → Mat × Mat)
    (m : BPR) (ts : TrainSet) (h : m.trainable = false) :
    (BPR.fit bprTrain m ts).U = m.U ∧ (BPR.fit bprTrain m ts).V = m.V := by
  simp [BPR.fit, h]

/-- C9 witness: the theorem applied to the non-trainable model mPre with a
training routine that would erase both factor matrices if it ran. -/
theorem C9_witness :
    (BPR.fit (fun _ _ => ([], [])) mPre ⟨3, 4⟩).U = mPre.U ∧
    (BPR.fit (fun _ _ => ([], [])) mPre ⟨3, 4⟩).V = mPre.V :=
  C9_fit_preserves_factors (fun _ _ => ([], [])) mPre ⟨3, 4⟩ rfl

/-! ## C10: the restricted ranking is a permutation of the candidates -/

/-- C10 counterexample: the empty list is a candidate list of pairwise
distinct indices, but rank(0, []) raises ValueError (Python max of an empty
sequence), so it does not return the unique permutation [] of the empty
candidate list. -/
theorem C10_counterexample :
    BPR.rank exM1 0 0 (some []) = Except.error PyError.valueError ∧
    ([] : List Nat).Nodup ∧
    (Except.error PyError.valueError : Except PyError (List Nat)) ≠
      Except.ok [] := by
  refine ⟨?_, List.nodup_nil, by simp⟩
  norm_num [BPR.rank, exM1, ts1, TrainSet.is_unk_user, List.max?]

/-- C10 (amended): for every known user u and every NONEMPTY candidate list C
of pairwise-distinct item indices, rank(u, C) returns a permutation of C:
every element of C appears exactly once and nothing else appears.  For the
empty candidate list the source raises ValueError instead. -/
theorem C10_rank_candidates_perm (m : BPR) (ts : TrainSet) (U V : Mat)
    (d : ℚ) (u : Nat) (C : List Nat) (mx : Nat)
    (hts : m.train_set = some ts) (hu : ts.is_unk_user u = false)
    (hU : m.U = some U) (hV : m.V = some V)
    (hVlen : V.length = ts.num_items)
    (hmx : C.max? = some mx) (hnd : C.Nodup) :
    m.rank d u (some C) = Except.ok
      ((argsortDesc (itemScores V U u ++
          List.replicate (Nat.max ts.num_items (mx + 1) - ts.num_items) d)).filter
        (fun i => decide (i ∈ C))) ∧
    ((argsortDesc (itemScores V U u ++
        List.replicate (Nat.max ts.num_items (mx + 1) - ts.num_items) d)).filter
      (fun i => decide (i ∈ C))).Perm C := by
  have hslen : (itemScores V U u).length = ts.num_items := by
    simp [itemScores, hVlen]
  have hmaxl : ts.num_items ≤ Nat.max ts.num_items (mx + 1) :=
    Nat.le_max_left _ _
  have hmaxr : mx + 1 ≤ Nat.max ts.num_items (mx + 1) :=
    Nat.le_max_right _ _
  have hlen : (itemScores V U u ++
      List.replicate (Nat.max ts.num_items (mx + 1) - ts.num_items) d).length =
      Nat.max ts.num_items (mx + 1) := by
    rw [List.length_append, List.length_replicate, hslen]
    omega
  have hperm : (argsortDesc (itemScores V U u ++
      List.replicate (Nat.max ts.num_items (mx + 1) - ts.num_items) d)).Perm
      (List.range (Nat.max ts.num_items (mx + 1))) := by
    have h0 := argsortDesc_perm (itemScores V U u ++
      List.replicate (Nat.max ts.num_items (mx + 1) - ts.num_items) d)
    rw [hlen] at h0
    exact h0
  refine ⟨rank_known_cand m ts U V d u C mx hts hu hU hV hmx,
    filter_perm_of_perm_range hnd ?_ hperm⟩
  intro c hc
  have h1 : c ≤ mx := le_max?_nat hmx c hc
  omega

/-- C10 witness: the amended theorem applied to the model exM2 with the
duplicate-free candidate list [3, 0]. -/
theorem C10_witness :
    BPR.rank exM2 0 0 (some [3, 0]) = Except.ok
      ((argsortDesc (itemScores [[1], [2]] [[1]] 0 ++
          List.replicate (Nat.max ts1.num_items (3 + 1) - ts1.num_items) 0)).filter
        (fun i => decide (i ∈ [3, 0]))) ∧
    ((argsortDesc (itemScores [[1], [2]] [[1]] 0 ++
        List.replicate (Nat.max ts1.num_items (3 + 1) - ts1.num_items) 0)).filter
      (fun i => decide (i ∈ [3, 0]))).Perm [3, 0] :=
  C10_rank_candidates_perm exM2 ts1 [[1]] [[1], [2]] 0 0 [3, 0] 3
    rfl rfl rfl rfl rfl rfl (by decide)
